import Mathlib

/-!
Shallow embedding of the WiFleet connector (two source variants):
* `src/unnamed/part_000` — the richer variant with timeline and SSE broadcast:
  `broadcast`, `upsert`, `pickKey`, `statusToLabel`, the webhook handler,
  `/api/tracking`, `/events`, and `/api/mock/:order/:status`.
* `src/server.js` — the simpler variant: `pickKey` (six candidates), the
  sequential-if status classification, `upsert` without timeline, mock.

JavaScript conventions modelled explicitly:
* A payload field is `Option String` (`none` = key absent/undefined).
* `a || b` on such values is `jsOr`: skips absent values AND empty strings
  (both falsy); `a ?? b` is `jsNullish`: skips only absent values.
* An object-literal patch distinguishes key-absent from key-present-with-
  undefined, so a patch field is `Option (Option String)`:
  `none` = key absent (spread keeps the previous value),
  `some v` = key present with value `v` (spread overwrites, even when
  `v = none`, i.e. an explicit `undefined` clobbers the previous value).
* Regex tests such as `/accept|assigned/i.test(raw)` are case-insensitive
  substring matching; modelled by lowercasing the haystack (all patterns
  are lowercase ASCII literals).
* `new Date().toISOString()` timestamps are an injectable clock `Nat`.
* The `Map` store is an association list with most-recent-first lookup
  (`Map.set` = cons; `Map.get` = first hit).
-/

/-- JS truthiness of a possibly-absent string: absent and `""` are falsy. -/
def jsTruthy : Option String → Bool
  | some s => s ≠ ""
  | none => false

/-- JS `a || b` on possibly-absent strings. `||` is associative, so the
right-nested chains below equal the source's left-to-right evaluation. -/
def jsOr (a b : Option String) : Option String :=
  if jsTruthy a then a else b

/-- JS `a ?? b` (nullish coalescing) on possibly-absent strings. -/
def jsNullish (a b : Option String) : Option String :=
  match a with
  | some _ => a
  | none => b

/-- JS `String.prototype.toLowerCase()` (ASCII-relevant part), defined over
the character list so it computes by kernel reduction. -/
def lowerStr (s : String) : String := ⟨s.data.map Char.toLower⟩

/-- JS `String.prototype.trim()`: strip whitespace from both ends, defined
over the character list so it computes by kernel reduction. -/
def trimStr (s : String) : String :=
  ⟨((s.data.dropWhile Char.isWhitespace).reverse.dropWhile Char.isWhitespace).reverse⟩

/-- Boolean substring test on character lists (`p` occurs inside `s`). -/
def listHasSub (p : List Char) : List Char → Bool
  | [] => p.isEmpty
  | c :: rest => p.isPrefixOf (c :: rest) || listHasSub p rest

/-- Boolean substring test on strings: does `s` contain `p`? -/
def strHasSub (s p : String) : Bool := listHasSub p.data s.data

/-- `/(p1|p2|...)/.test(s)`: does `s` contain any of the patterns? -/
def strHasSubAny (s : String) (pats : List String) : Bool :=
  pats.any (fun p => strHasSub s p)

/-- Webhook payload: the loosely-typed upstream body, restricted to the
fields the source reads.  `driverObjName`/`driverObjPhone` stand for the
nested `b.driver?.name` / `b.driver?.phone`; `locLat`/`locLng` for
`b.location?.lat` / `b.location?.lng`. -/
structure Payload where
  task_id : Option String := none
  reference : Option String := none
  order_id : Option String := none
  order : Option String := none
  id : Option String := none
  job_id : Option String := none
  code : Option String := none
  task_code : Option String := none
  tracking_id : Option String := none
  tracking_code : Option String := none
  status : Option String := none
  task_status : Option String := none
  driverObjName : Option String := none
  driver_name : Option String := none
  courier_name : Option String := none
  driverObjPhone : Option String := none
  driver_phone : Option String := none
  courier_phone : Option String := none
  locLat : Option String := none
  lat : Option String := none
  latitude : Option String := none
  locLng : Option String := none
  lng : Option String := none
  longitude : Option String := none
  eta_minutes : Option String := none
  eta : Option String := none
deriving DecidableEq

/-- part_000 `pickKey`:
`b.task_id || b.reference || b.order_id || b.order || b.id || b.job_id ||
 b.code || b.task_code || b.tracking_id || b.tracking_code || null`. -/
def pickKey (b : Payload) : Option String :=
  jsOr b.task_id (jsOr b.reference (jsOr b.order_id (jsOr b.order
    (jsOr b.id (jsOr b.job_id (jsOr b.code (jsOr b.task_code
      (jsOr b.tracking_id (jsOr b.tracking_code none)))))))))

/-- server.js `pickKey`:
`b.task_id || b.reference || b.order_id || b.order || b.id || b.job_id || null`. -/
def pickKeyServer (b : Payload) : Option String :=
  jsOr b.task_id (jsOr b.reference (jsOr b.order_id (jsOr b.order
    (jsOr b.id (jsOr b.job_id none)))))

/-- The ordered candidate list probed by part_000's `pickKey`. -/
def candListP0 (b : Payload) : List (Option String) :=
  [b.task_id, b.reference, b.order_id, b.order, b.id, b.job_id,
   b.code, b.task_code, b.tracking_id, b.tracking_code]

/-- The ordered candidate list probed by server.js's `pickKey`. -/
def candListServer (b : Payload) : List (Option String) :=
  [b.task_id, b.reference, b.order_id, b.order, b.id, b.job_id]

/-- part_000 `statusToLabel`: `if (!s) return null;` then first-match-wins
case-insensitive pattern tests returning a fixed label. -/
def statusToLabel (s : String) : Option String :=
  if s = "" then none
  else
    let t := lowerStr s
    if strHasSubAny t ["accept", "assigned"] then some "Driver accepted your order"
    else if strHasSubAny t ["start", "enroute", "on_the_way", "on-the-way", "dispatched"] then
      some "Driver is on the way"
    else if strHasSubAny t ["nearby", "arriving"] then some "Driver is nearby"
    else if strHasSubAny t ["delivered", "completed", "success"] then
      some "Order delivered successfully"
    else none

/-- part_000 webhook status classification (lines 95-100): a nested
conditional expression, so the first matching pattern group wins;
`undefined` when nothing matches. -/
def classify (raw : String) : Option String :=
  let t := lowerStr raw
  if strHasSubAny t ["accept", "assigned"] then some "accepted"
  else if strHasSubAny t ["start", "enroute", "on_the_way", "on-the-way", "dispatched"] then
    some "enroute"
  else if strHasSubAny t ["nearby", "arriving"] then some "nearby"
  else if strHasSubAny t ["delivered", "completed", "success"] then some "completed"
  else none

/-- server.js status classification (lines 71-75): `let status = undefined;`
followed by four independent `if` statements WITHOUT `else`, each
overwriting `status` — so the LAST matching pattern group wins. -/
def classifyServer (raw : String) : Option String :=
  let t := lowerStr raw
  let s1 : Option String :=
    if strHasSubAny t ["accept", "assigned"] then some "accepted" else none
  let s2 :=
    if strHasSubAny t ["start", "enroute", "on_the_way", "on-the-way", "dispatched"] then
      some "enroute" else s1
  let s3 := if strHasSubAny t ["nearby", "arriving"] then some "nearby" else s2
  let s4 :=
    if strHasSubAny t ["delivered", "completed", "success"] then some "completed" else s3
  s4

/-- A timeline entry `{ ts, label }`. -/
structure TimelineEntry where
  ts : Nat
  label : String
deriving DecidableEq

/-- The stored per-order record of part_000 (all sticky fields optional;
stored as strings — the source never coerces them). -/
structure OrderState where
  status : Option String := none
  driverName : Option String := none
  driverPhone : Option String := none
  lat : Option String := none
  lng : Option String := none
  etaMinutes : Option String := none
  timeline : List TimelineEntry := []
  updatedAt : Nat := 0
deriving DecidableEq

/-- A canonical patch as built by the repository's call sites: each field is
`none` (key absent from the object literal) or `some v` (key present with
value `v`, where `v = none` is an explicit `undefined`).  No call site ever
puts `timeline` or `updatedAt` in a patch. -/
structure Patch where
  status : Option (Option String) := none
  driverName : Option (Option String) := none
  driverPhone : Option (Option String) := none
  lat : Option (Option String) := none
  lng : Option (Option String) := none
  etaMinutes : Option (Option String) := none
deriving DecidableEq

/-- Object-spread semantics for one field: an absent key keeps the previous
value; a present key (even explicitly `undefined`) overwrites it. -/
def applyF (prev : Option String) (p : Option (Option String)) : Option String :=
  match p with
  | none => prev
  | some v => v

/-- The in-memory `Map` store: association list, most recent binding first. -/
abbrev Store := List (String × OrderState)

/-- `store.get(key)` on the association-list model. -/
def lookupStore : Store → String → Option OrderState
  | [], _ => none
  | (k, v) :: rest, key => if k = key then some v else lookupStore rest key

/-- part_000 `upsert` (without its broadcast side effect, which the system
model performs right after): seeds from `store.get(order) || {timeline: []}`,
copies every field forward, spreads the patch over it, pushes a timeline
entry if `timelineLabel` is truthy, stamps `updatedAt`, stores and returns
the new record. -/
def upsert (store : Store) (order : String) (patch : Patch)
    (timelineLabel : Option String) (t : Nat) : Store × OrderState :=
  let prev := (lookupStore store order).getD { timeline := [] }
  let next : OrderState :=
    { status := applyF prev.status patch.status
      driverName := applyF prev.driverName patch.driverName
      driverPhone := applyF prev.driverPhone patch.driverPhone
      lat := applyF prev.lat patch.lat
      lng := applyF prev.lng patch.lng
      etaMinutes := applyF prev.etaMinutes patch.etaMinutes
      -- `if (timelineLabel) next.timeline.push({ts, label})` = append one
      -- entry exactly when the label is truthy (non-null, non-empty).
      timeline := prev.timeline ++
        (if jsTruthy timelineLabel then [⟨t, timelineLabel.getD ""⟩] else [])
      updatedAt := t }
  ((order, next) :: store, next)

/-- `(b.status || b.task_status || "").toString()`. -/
def rawStatus (b : Payload) : String :=
  (jsOr b.status (jsOr b.task_status none)).getD ""

/-- The patch the part_000 webhook handler builds (lines 94-106).  Every key
is PRESENT in the object literal; a field that could not be extracted gets
the explicit value `undefined` (`some none` here), which `upsert`'s spread
then writes over the previously stored value. -/
def webhookPatch (b : Payload) : Patch :=
  { status := some (classify (rawStatus b))
    driverName := some (jsOr b.driverObjName (jsOr b.driver_name (jsOr b.courier_name none)))
    driverPhone := some (jsOr b.driverObjPhone (jsOr b.driver_phone (jsOr b.courier_phone none)))
    lat := some (jsNullish b.locLat (jsNullish b.lat (jsNullish b.latitude none)))
    lng := some (jsNullish b.locLng (jsNullish b.lng (jsNullish b.longitude none)))
    etaMinutes := some (jsNullish b.eta_minutes (jsNullish b.eta none)) }

/-- An SSE subscriber: its identity and whether `res.write` succeeds
(`ok = false` models a closed/broken channel whose write throws). -/
structure Subscriber where
  sid : Nat
  ok : Bool
deriving DecidableEq

/-- The `listeners` map: orderKey -> set of open SSE responses, modelled as
an association list of subscriber lists (most recent binding first). -/
abbrev Listeners := List (String × List Subscriber)

/-- `listeners.get(order)`. -/
def lookupListeners : Listeners → String → Option (List Subscriber)
  | [], _ => none
  | (k, v) :: rest, key => if k = key then some v else lookupListeners rest key

/-- part_000 `broadcast` (lines 19-26): looks up the subscriber set for
`order` and attempts `res.write` on each, with the exception of a broken
channel caught and IGNORED (`catch (_) {}` — no unsubscription).  Returns
the subscribers that actually received the payload; the `listeners` map is
not modified by the source function at all. -/
def broadcastDeliveries (ls : Listeners) (order : String) : List Subscriber :=
  match lookupListeners ls order with
  | none => []
  | some set => set.filter (fun r => r.ok)

/-- The message pushed to one SSE subscriber or returned by the tracking
API: the order key spread together with the full state (`{order, ...next}`). -/
abbrev Msg := String × OrderState

/-- `/events` registration: `if (!listeners.has(order)) listeners.set(order,
new Set()); listeners.get(order).add(res)`. -/
def addListener (ls : Listeners) (key : String) (sub : Subscriber) : Listeners :=
  (key, ((lookupListeners ls key).getD []) ++ [sub]) :: ls

/-- Whole-system state of part_000: the store, the SSE listener registry, a
log of every message delivered to a subscriber (as `(sid, order, state)`),
and the injectable clock. -/
structure Sys where
  store : Store
  listeners : Listeners
  msgs : List (Nat × String × OrderState)
  clock : Nat
deriving DecidableEq

/-- The empty process-start state. -/
def initSys : Sys := { store := [], listeners := [], msgs := [], clock := 0 }

/-- Result of the webhook route: `.noKey` is the early `return` with
`{ok:true, note:"no task id in payload"}` (the spec's `accepted=false,
reason="no key"`); `.ok` is the normal `{ok:true}` after `upsert`. -/
inductive WebhookResult where
  | noKey
  | ok
deriving DecidableEq

/-- part_000 webhook handler (lines 88-114), post-authentication: extract
the key, build the patch and label, and either no-op (no key) or
`upsert` + `broadcast`.  The handler itself does not touch the clock. -/
def webhookHandler (b : Payload) (s : Sys) : WebhookResult × Sys :=
  match pickKey b with
  | none => (.noKey, s)
  | some order =>
      let label := statusToLabel (rawStatus b)
      let res := upsert s.store order (webhookPatch b) label s.clock
      let delivered := broadcastDeliveries s.listeners order
      (.ok, { s with
                store := res.1
                msgs := s.msgs ++ delivered.map (fun r => (r.sid, order, res.2)) })

/-- part_000 mock route (lines 263-269): `upsert(order, { status: st },
label || ("Status: "+st))`.  The patch carries ONLY the raw status string;
the status→label mapping is applied to pick the timeline label only. -/
def mockHandler (order st : String) (s : Sys) : Sys :=
  let label := jsOr (statusToLabel st) (some ("Status: " ++ st))
  let res := upsert s.store order { status := some (some st) } label s.clock
  let delivered := broadcastDeliveries s.listeners order
  { s with
      store := res.1
      msgs := s.msgs ++ delivered.map (fun r => (r.sid, order, res.2)) }

/-- The store-mutating operations (the "merges" of the spec). -/
inductive MergeOp where
  | webhook (b : Payload)
  | mock (order st : String)

/-- Run one merge operation, ticking the clock first. -/
def runOp (s : Sys) : MergeOp → Sys
  | .webhook b => (webhookHandler b { s with clock := s.clock + 1 }).2
  | .mock order st => mockHandler order st { s with clock := s.clock + 1 }

/-- Run a sequence of merge operations. -/
def runOps (s : Sys) (ops : List MergeOp) : Sys := ops.foldl runOp s

/-- `store.get(order) || { status: "pending", timeline: [] }`: the view the
tracking API and the SSE initial snapshot both build for a key. -/
def queryView (store : Store) (order : String) : OrderState :=
  (lookupStore store order).getD { status := some "pending", timeline := [] }

/-- Result of `/api/tracking`: 400 for a blank key, else the snapshot. -/
inductive TrackResult where
  | badRequest
  | ok (m : Msg)
deriving DecidableEq

/-- part_000 `/api/tracking` (lines 118-123): trim the query parameter,
reject a blank key with 400, else reply `{order, ...snapshot}`.  A read:
never changes the store. -/
def trackingHandler (store : Store) (q : Option String) : TrackResult :=
  let order := trimStr (q.getD "")
  if order = "" then .badRequest
  else .ok (order, queryView store order)

/-- part_000 `/events` (lines 126-147): trim the query parameter; a blank
key is answered 400 with NOTHING registered or sent; otherwise the current
snapshot is written to the new subscriber FIRST and the subscriber is
registered afterwards.  Returns whether the connection was accepted,
together with the updated system. -/
def connectES (s : Sys) (q : Option String) (sub : Subscriber) : Bool × Sys :=
  let order := trimStr (q.getD "")
  if order = "" then (false, s)
  else
    let snapshot := queryView s.store order
    (true, { s with
               msgs := s.msgs ++ [(sub.sid, order, snapshot)]
               listeners := addListener s.listeners order sub })

/-- The messages a given subscriber id has received, as `(order, state)`. -/
def msgsFor (msgs : List (Nat × String × OrderState)) (sid : Nat) :
    List (String × OrderState) :=
  (msgs.filter (fun m => m.1 = sid)).map (fun m => m.2)

/-- The timeline currently stored for a key (empty when the key is absent,
matching `upsert`'s `store.get(order) || { timeline: [] }` seed). -/
def timelineOf (s : Sys) (key : String) : List TimelineEntry :=
  ((lookupStore s.store key).getD { timeline := [] }).timeline

/-- The classification rule set, in the claim's stated order: each pattern
group paired with the status it classifies to. -/
def ruleGroups : List (List String × String) :=
  [(["accept", "assigned"], "accepted"),
   (["start", "enroute", "on_the_way", "on-the-way", "dispatched"], "enroute"),
   (["nearby", "arriving"], "nearby"),
   (["delivered", "completed", "success"], "completed")]

/-- First-match-wins classification over `ruleGroups`, following the
claim's words ("first match wins"): the earliest matching group decides. -/
def firstMatchSpec (raw : String) : Option String :=
  (ruleGroups.find? (fun g => strHasSubAny (lowerStr raw) g.1)).map (fun g => g.2)

/-- Last-match-wins classification over `ruleGroups`: the latest matching
group decides (what server.js's sequential `if` statements implement). -/
def lastMatchSpec (raw : String) : Option String :=
  (ruleGroups.reverse.find? (fun g => strHasSubAny (lowerStr raw) g.1)).map (fun g => g.2)

/-- The status values the webhook path can ever write: the four canonical
labels, or `none` (status cleared / never set). -/
def webhookStatuses : List (Option String) :=
  [none, some "accepted", some "enroute", some "nearby", some "completed"]

/-- Concrete payloads used in the closed evaluations below. -/
def evDriverOnly : Payload := { order_id := some "T2", driver_name := some "Ahmed" }

def evStatusOnly : Payload := { order_id := some "T2", status := some "enroute" }

def evNearbyK : Payload := { task_id := some "K", status := some "nearby" }

def evUnknownK : Payload := { task_id := some "K", status := some "zzz" }

def evBlankTaskId : Payload := { task_id := some "  ", order_id := some "X" }

/-- A listener table with one broken channel (sid 1) and one live one (sid 2). -/
def lsBroken : Listeners := [("K", [⟨1, false⟩, ⟨2, true⟩])]

def sysBroken : Sys := { store := [], listeners := lsBroken, msgs := [], clock := 0 }


/-! ## Helper lemmas -/

theorem upsert_fst (store : Store) (order : String) (patch : Patch)
    (tl : Option String) (t : Nat) :
    (upsert store order patch tl t).1
      = (order, (upsert store order patch tl t).2) :: store := rfl

theorem lookupStore_cons_self (k : String) (v : OrderState) (s : Store) :
    lookupStore ((k, v) :: s) k = some v := by simp [lookupStore]

theorem lookupStore_cons_ne (k key : String) (v : OrderState) (s : Store)
    (h : k ≠ key) : lookupStore ((k, v) :: s) key = lookupStore s key := by
  simp [lookupStore, h]

theorem runOp_listeners (s : Sys) (op : MergeOp) :
    (runOp s op).listeners = s.listeners := by
  cases op with
  | webhook b =>
      cases hpk : pickKey b <;> simp [runOp, webhookHandler, hpk]
  | mock order st => simp [runOp, mockHandler]

theorem broadcastDeliveries_nil (order : String) :
    broadcastDeliveries [] order = [] := rfl

theorem runOp_msgs_of_no_listeners (s : Sys) (op : MergeOp)
    (h : s.listeners = []) : (runOp s op).msgs = s.msgs := by
  cases op with
  | webhook b =>
      cases hpk : pickKey b <;>
        simp [runOp, webhookHandler, hpk, h, broadcastDeliveries_nil]
  | mock order st => simp [runOp, mockHandler, h, broadcastDeliveries_nil]

theorem runOps_keep_quiet (ops : List MergeOp) (s : Sys)
    (hl : s.listeners = []) (hm : s.msgs = []) :
    (runOps s ops).listeners = [] ∧ (runOps s ops).msgs = [] := by
  induction ops generalizing s with
  | nil => exact ⟨hl, hm⟩
  | cons op rest ih =>
      have h1 : (runOp s op).listeners = [] := by rw [runOp_listeners]; exact hl
      have h2 : (runOp s op).msgs = [] := by
        rw [runOp_msgs_of_no_listeners s op hl]; exact hm
      exact ih (runOp s op) h1 h2

theorem upsert_timeline (store : Store) (order : String) (patch : Patch)
    (tl : Option String) (t : Nat) :
    ((upsert store order patch tl t).2).timeline
      = ((lookupStore store order).getD { timeline := [] }).timeline ++
          (if jsTruthy tl then [⟨t, tl.getD ""⟩] else []) := rfl

theorem timelineOf_upsert_sys (s : Sys) (order key : String) (patch : Patch)
    (tl : Option String) (t : Nat) (newSys : Sys)
    (hst : newSys.store = (upsert s.store order patch tl t).1) :
    ∃ tail, timelineOf newSys key = timelineOf s key ++ tail := by
  rw [timelineOf, hst, upsert_fst]
  by_cases hk : order = key
  · subst hk
    rw [lookupStore_cons_self]
    exact ⟨_, by rw [Option.getD_some, upsert_timeline]; rfl⟩
  · rw [lookupStore_cons_ne _ _ _ _ hk]
    exact ⟨[], by rw [List.append_nil]; rfl⟩

theorem timelineOf_runOp (s : Sys) (op : MergeOp) (key : String) :
    ∃ tail, timelineOf (runOp s op) key = timelineOf s key ++ tail := by
  cases op with
  | webhook b =>
      cases hpk : pickKey b with
      | none =>
          refine ⟨[], ?_⟩
          rw [List.append_nil]
          simp [runOp, webhookHandler, hpk, timelineOf]
      | some order =>
          have hst : (runOp s (.webhook b)).store
              = (upsert s.store order (webhookPatch b)
                  (statusToLabel (rawStatus b)) (s.clock + 1)).1 := by
            simp [runOp, webhookHandler, hpk]
          exact timelineOf_upsert_sys s order key _ _ _ _ hst
  | mock order st =>
      have hst : (runOp s (.mock order st)).store
          = (upsert s.store order { status := some (some st) }
              (jsOr (statusToLabel st) (some ("Status: " ++ st))) (s.clock + 1)).1 := by
        simp [runOp, mockHandler]
      exact timelineOf_upsert_sys s order key _ _ _ _ hst

theorem timelineOf_runOps (s : Sys) (ops : List MergeOp) (key : String) :
    ∃ tail, timelineOf (runOps s ops) key = timelineOf s key ++ tail := by
  induction ops generalizing s with
  | nil => exact ⟨[], (List.append_nil _).symm⟩
  | cons op rest ih =>
      obtain ⟨t1, h1⟩ := timelineOf_runOp s op key
      obtain ⟨t2, h2⟩ := ih (runOp s op)
      refine ⟨t1 ++ t2, ?_⟩
      have : runOps s (op :: rest) = runOps (runOp s op) rest := rfl
      rw [this, h2, h1, List.append_assoc]

theorem classify_mem_webhookStatuses (raw : String) :
    classify raw ∈ webhookStatuses := by
  simp only [classify, webhookStatuses]
  split_ifs <;> simp

theorem webhook_step_status_invariant (b : Payload) (s : Sys)
    (h : ∀ key r, lookupStore s.store key = some r → r.status ∈ webhookStatuses) :
    ∀ key r, lookupStore (runOp s (.webhook b)).store key = some r →
      r.status ∈ webhookStatuses := by
  cases hpk : pickKey b with
  | none =>
      intro key r hr
      rw [show (runOp s (.webhook b)).store = s.store by
        simp [runOp, webhookHandler, hpk]] at hr
      exact h key r hr
  | some order =>
      intro key r hr
      rw [show (runOp s (.webhook b)).store
          = (upsert s.store order (webhookPatch b)
              (statusToLabel (rawStatus b)) (s.clock + 1)).1 by
        simp [runOp, webhookHandler, hpk], upsert_fst] at hr
      by_cases hk : order = key
      · subst hk
        rw [lookupStore_cons_self] at hr
        have hrs : r.status = classify (rawStatus b) := by
          cases hr; rfl
        rw [hrs]
        exact classify_mem_webhookStatuses _
      · rw [lookupStore_cons_ne _ _ _ _ hk] at hr
        exact h key r hr

theorem webhook_runOps_status_invariant (ops : List MergeOp)
    (hops : ∀ op ∈ ops, ∃ b, op = MergeOp.webhook b) (s : Sys)
    (h : ∀ key r, lookupStore s.store key = some r → r.status ∈ webhookStatuses) :
    ∀ key r, lookupStore (runOps s ops).store key = some r →
      r.status ∈ webhookStatuses := by
  induction ops generalizing s with
  | nil => exact h
  | cons op rest ih =>
      obtain ⟨b, hb⟩ := hops op (List.mem_cons_self op rest)
      subst hb
      exact ih (fun op hop => hops op (List.mem_cons_of_mem _ hop)) (runOp s (.webhook b))
        (webhook_step_status_invariant b s h)

theorem foldr_jsOr_eq_find (l : List (Option String)) :
    l.foldr jsOr none = (l.find? (fun c => jsTruthy c)).join := by
  induction l with
  | nil => rfl
  | cons c rest ih =>
      by_cases hc : jsTruthy c
      · simp [List.foldr, List.find?, jsOr, hc]
      · simp only [List.foldr, List.find?]
        rw [show jsOr c (rest.foldr jsOr none) = rest.foldr jsOr none from by
          simp [jsOr, hc]]
        simp only [hc, Bool.false_eq_true, cond_false]
        exact ih

theorem foldr_jsOr_eq_none_iff (l : List (Option String)) :
    l.foldr jsOr none = none ↔ ∀ c ∈ l, jsTruthy c = false := by
  induction l with
  | nil => simp
  | cons c rest ih =>
      simp only [List.foldr, List.mem_cons]
      by_cases hc : jsTruthy c
      · rw [show jsOr c (rest.foldr jsOr none) = c from by simp [jsOr, hc]]
        constructor
        · intro h
          rw [h] at hc
          simp [jsTruthy] at hc
        · intro h
          have hcf := h c (Or.inl rfl)
          rw [hcf] at hc
          exact Bool.noConfusion hc
      · rw [show jsOr c (rest.foldr jsOr none) = rest.foldr jsOr none from by
          simp [jsOr, hc]]
        rw [ih]
        constructor
        · intro h d hd
          rcases hd with hd | hd
          · subst hd; simpa using hc
          · exact h d hd
        · intro h d hd
          exact h d (Or.inr hd)

theorem classify_eq_firstMatchSpec (raw : String) :
    classify raw = firstMatchSpec raw := by
  simp only [classify, firstMatchSpec, ruleGroups]
  cases hA : strHasSubAny (lowerStr raw) ["accept", "assigned"] <;>
  cases hE : strHasSubAny (lowerStr raw)
      ["start", "enroute", "on_the_way", "on-the-way", "dispatched"] <;>
  cases hN : strHasSubAny (lowerStr raw) ["nearby", "arriving"] <;>
  cases hC : strHasSubAny (lowerStr raw) ["delivered", "completed", "success"] <;>
    simp [List.find?, hA, hE, hN, hC]

theorem classifyServer_eq_lastMatchSpec (raw : String) :
    classifyServer raw = lastMatchSpec raw := by
  simp only [classifyServer, lastMatchSpec, ruleGroups]
  cases hA : strHasSubAny (lowerStr raw) ["accept", "assigned"] <;>
  cases hE : strHasSubAny (lowerStr raw)
      ["start", "enroute", "on_the_way", "on-the-way", "dispatched"] <;>
  cases hN : strHasSubAny (lowerStr raw) ["nearby", "arriving"] <;>
  cases hC : strHasSubAny (lowerStr raw) ["delivered", "completed", "success"] <;>
    simp [List.find?, hA, hE, hN, hC]

/-! ## Claim theorems -/

/-- Claim C1 (code_bug evaluation): the spec's merge scenario fails on the
code.  After the event `{order_id:"T2", driver_name:"Ahmed"}` the store
holds `driverName = "Ahmed"`; but the following event `{order_id:"T2",
status:"enroute"}` produces a webhook patch whose `driverName` key is
present with the explicit value `undefined`, and the object spread in
`upsert` overwrites the stored `"Ahmed"` with it — the final state has the
status but has LOST the driver name, contradicting the claimed field-wise
last-write-wins / sticky-field semantics. -/
theorem c1_spread_clobbers_sticky_fields :
    ((lookupStore (runOps initSys [.webhook evDriverOnly]).store "T2").map
        OrderState.driverName = some (some "Ahmed")) ∧
    ((lookupStore (runOps initSys [.webhook evDriverOnly, .webhook evStatusOnly]).store
        "T2").map (fun r => (r.driverName, r.status)) = some (none, some "enroute")) ∧
    (webhookPatch evStatusOnly).driverName = some none := by decide

/-- Claim C2 (code_bug evaluation): an event whose raw status matches no
classification pattern appends no timeline entry (that half of the claim
holds) but does NOT leave the stored status unchanged: the patch carries
`status: undefined` (key present), so the previously stored `"nearby"` is
overwritten with `undefined` instead of being retained. -/
theorem c2_unrecognized_status_clears_status :
    classify "zzz" = none ∧
    ((lookupStore (runOps initSys [.webhook evNearbyK]).store "K").map
        OrderState.status = some (some "nearby")) ∧
    ((lookupStore (runOps initSys [.webhook evNearbyK, .webhook evUnknownK]).store
        "K").map (fun r => (r.status, r.timeline.map TimelineEntry.label))
      = some (none, ["Driver is nearby"])) := by decide

/-- Claim C3 (counterexample): the raw status `"accept success"` contains
both the earlier `accept` pattern (→ accepted) and the later `success`
pattern (→ completed).  src/server.js's classification returns
`completed` — the LATER pattern — refuting the claim that a string matching
an earlier and a later pattern classifies as the earlier one (part_000's
nested conditional does return `accepted`). -/
theorem c3_counterexample_server_last_wins :
    classifyServer "accept success" = some "completed" ∧
    classify "accept success" = some "accepted" ∧
    (some "completed" : Option String) ≠ some "accepted" := by decide

/-- Claim C3 (amended): part_000's classification is exactly first-match-
wins over the four ordered pattern groups, while src/server.js's
sequential un-elsed `if` chain is exactly LAST-match-wins over the same
groups; unmatched text yields no status in both. -/
theorem c3_first_match_p0_last_match_server (raw : String) :
    classify raw = firstMatchSpec raw ∧ classifyServer raw = lastMatchSpec raw :=
  ⟨classify_eq_firstMatchSpec raw, classifyServer_eq_lastMatchSpec raw⟩

/-- Claim C4 (counterexample): `mock` does NOT apply the status→label
mapping to the stored status — it stores the raw path segment verbatim
(`upsert(order, { status: st }, ...)`), so `/api/mock/X/zzz` stores the
non-canonical status `"zzz"`, violating the claimed invariant. -/
theorem c4_counterexample_mock_stores_raw :
    ((lookupStore (runOp initSys (.mock "X" "zzz")).store "X").map
        OrderState.status = some (some "zzz")) ∧
    (some "zzz" : Option String) ∉ webhookStatuses := by decide

/-- Claim C4 (amended): the WEBHOOK path does keep every stored status
canonical — after any sequence of webhook events, every stored record's
status is one of the four canonical values or absent (`pending` is never
stored) — but `mock(key, rawStatus)` stores `rawStatus` verbatim, applying
the status→label mapping only to choose the timeline label, so arbitrary
non-canonical statuses are storable through `mock`. -/
theorem c4_webhook_canonical_mock_verbatim :
    (∀ ops : List MergeOp, (∀ op ∈ ops, ∃ b, op = MergeOp.webhook b) →
      ∀ key r, lookupStore (runOps initSys ops).store key = some r →
        r.status ∈ webhookStatuses) ∧
    (∀ s order st, (lookupStore (runOp s (.mock order st)).store order).map
        OrderState.status = some (some st)) := by
  constructor
  · intro ops hops key r hr
    refine webhook_runOps_status_invariant ops hops initSys ?_ key r hr
    intro key r hr
    simp [initSys, lookupStore] at hr
  · intro s order st
    rw [show (runOp s (.mock order st)).store
        = (upsert s.store order { status := some (some st) }
            (jsOr (statusToLabel st) (some ("Status: " ++ st))) (s.clock + 1)).1 by
      simp [runOp, mockHandler], upsert_fst, lookupStore_cons_self]
    rfl

/-- Witness for C4: instantiates both halves — the record stored by the
webhook event `{task_id:"K", status:"nearby"}` has a canonical status, and
the mock call `/api/mock/M/hello` stores `"hello"` verbatim. -/
theorem c4_witness :
    ({ status := some "nearby", driverName := none, driverPhone := none,
       lat := none, lng := none, etaMinutes := none,
       timeline := [⟨1, "Driver is nearby"⟩], updatedAt := 1 } : OrderState).status
      ∈ webhookStatuses ∧
    (lookupStore (runOp initSys (.mock "M" "hello")).store "M").map
      OrderState.status = some (some "hello") :=
  ⟨c4_webhook_canonical_mock_verbatim.1 [.webhook evNearbyK]
      (fun op hop => ⟨evNearbyK, by simpa using hop⟩) "K" _ (by decide),
   c4_webhook_canonical_mock_verbatim.2 initSys "M" "hello"⟩

/-- Claim C5: when no OrderKey is extractable from the payload, the webhook
handler answers with the no-key no-op result and returns the system
completely unchanged — same store, same listeners, no message broadcast to
any subscriber. -/
theorem c5_no_key_is_noop (b : Payload) (s : Sys) (h : pickKey b = none) :
    webhookHandler b s = (.noKey, s) := by
  unfold webhookHandler
  rw [h]

/-- Witness for C5: a payload carrying only a status has no key candidate,
and processing it from a non-trivial system is a strict no-op. -/
theorem c5_witness :
    pickKey ({ status := some "nearby" } : Payload) = none ∧
    webhookHandler ({ status := some "nearby" } : Payload) sysBroken
      = (.noKey, sysBroken) :=
  ⟨by decide, c5_no_key_is_noop _ sysBroken (by decide)⟩

/-- Claim C6 (counterexample): with subscriber 1 on a broken channel and
subscriber 2 on a live one, a merge to their key delivers to subscriber 2
only — but subscriber 1 is NOT unsubscribed: the registry after the
broadcast still holds both subscribers, refuting "the failing subscriber
is unsubscribed as a result of the failure" (the source's
`catch (_) {}` ignores the failure and never touches `listeners`). -/
theorem c6_counterexample_failed_sub_stays :
    ((runOp sysBroken (.mock "K" "nearby")).msgs.map (fun m => m.1) = [2]) ∧
    ((runOp sysBroken (.mock "K" "nearby")).listeners = lsBroken) ∧
    (⟨1, false⟩ : Subscriber) ∈
      ((lookupListeners (runOp sysBroken (.mock "K" "nearby")).listeners "K").getD [])
    := by decide

/-- Claim C6 (amended): a send failure on one subscriber's channel is
caught and does not prevent delivery to any other (live) subscriber of the
key — every registered subscriber whose channel works receives the
broadcast — but the failing subscriber is NOT removed: no merge operation
modifies the subscription registry at all. -/
theorem c6_failure_isolated_no_unsubscribe :
    (∀ (ls : Listeners) (order : String) (set : List Subscriber) (sub : Subscriber),
      lookupListeners ls order = some set → sub ∈ set → sub.ok = true →
        sub ∈ broadcastDeliveries ls order) ∧
    (∀ (s : Sys) (op : MergeOp), (runOp s op).listeners = s.listeners) := by
  constructor
  · intro ls order set sub hset hmem hok
    unfold broadcastDeliveries
    rw [hset]
    exact List.mem_filter.mpr ⟨hmem, by simpa using hok⟩
  · exact runOp_listeners

/-- Witness for C6: the live subscriber 2 of `lsBroken` is delivered to
despite subscriber 1's broken channel, and a merge leaves the registry of
`sysBroken` untouched. -/
theorem c6_witness :
    (⟨2, true⟩ : Subscriber) ∈ broadcastDeliveries lsBroken "K" ∧
    (runOp sysBroken (.mock "K" "x")).listeners = sysBroken.listeners :=
  ⟨c6_failure_isolated_no_unsubscribe.1 lsBroken "K" [⟨1, false⟩, ⟨2, true⟩]
      ⟨2, true⟩ (by decide) (by decide) rfl,
   c6_failure_isolated_no_unsubscribe.2 sysBroken (.mock "K" "x")⟩

/-- Claim C7: a subscriber connecting to key K after any number of prior
merges (webhook or mock events) receives, as its one and only message, the
current snapshot — exactly what `/api/tracking` would answer for K at that
moment (the stored state, or the pending/empty-timeline default when K has
no record) — and never a replay of earlier update messages. -/
theorem c7_first_message_is_snapshot (ops : List MergeOp) (key : String)
    (sub : Subscriber) (h : trimStr key ≠ "") :
    (connectES (runOps initSys ops) (some key) sub).1 = true ∧
    msgsFor (connectES (runOps initSys ops) (some key) sub).2.msgs sub.sid
      = [(trimStr key, queryView (runOps initSys ops).store (trimStr key))] ∧
    trackingHandler (runOps initSys ops).store (some key)
      = .ok (trimStr key, queryView (runOps initSys ops).store (trimStr key)) := by
  have hms : (runOps initSys ops).msgs = [] :=
    (runOps_keep_quiet ops initSys rfl rfl).2
  refine ⟨?_, ?_, ?_⟩
  · simp [connectES, h]
  · simp [connectES, h, hms, msgsFor]
  · simp [trackingHandler, h]

/-- Witness for C7: after one merge to "K", a fresh subscriber with id 7
connecting to "K" gets exactly the current snapshot as its first message. -/
theorem c7_witness :
    (connectES (runOps initSys [.webhook evNearbyK]) (some "K") ⟨7, true⟩).1 = true ∧
    msgsFor (connectES (runOps initSys [.webhook evNearbyK]) (some "K") ⟨7, true⟩).2.msgs 7
      = [(trimStr "K", queryView (runOps initSys [.webhook evNearbyK]).store (trimStr "K"))] ∧
    trackingHandler (runOps initSys [.webhook evNearbyK]).store (some "K")
      = .ok (trimStr "K",
          queryView (runOps initSys [.webhook evNearbyK]).store (trimStr "K")) :=
  c7_first_message_is_snapshot [.webhook evNearbyK] "K" ⟨7, true⟩ (by decide)

/-- Claim C8 (counterexample): with `task_id: "  "` (whitespace only) and
`order_id: "X"`, `pickKey` returns `"  "` — the whitespace-only candidate
is NOT skipped in favor of the later `"X"`, and the returned value is NOT
trimmed (its trim is empty), refuting both trimming behaviors the claim
asserts. -/
theorem c8_counterexample_whitespace_not_skipped :
    pickKey evBlankTaskId = some "  " ∧
    trimStr "  " = "" ∧
    (some "  " : Option String) ≠ some "X" := by decide

/-- Claim C8 (amended): key extraction probes the fixed ordered candidate
list and returns the first PRESENT, NON-EMPTY-STRING value verbatim — no
trimming is applied and a whitespace-only value counts as non-empty — and
returns none exactly when every candidate is absent or the empty string.
Holds for both variants' candidate lists. -/
theorem c8_first_truthy_untrimmed (b : Payload) :
    pickKey b = ((candListP0 b).find? (fun c => jsTruthy c)).join ∧
    (pickKey b = none ↔ ∀ c ∈ candListP0 b, jsTruthy c = false) ∧
    pickKeyServer b = ((candListServer b).find? (fun c => jsTruthy c)).join ∧
    (pickKeyServer b = none ↔ ∀ c ∈ candListServer b, jsTruthy c = false) := by
  have h1 : pickKey b = (candListP0 b).foldr jsOr none := rfl
  have h2 : pickKeyServer b = (candListServer b).foldr jsOr none := rfl
  refine ⟨?_, ?_, ?_, ?_⟩
  · rw [h1, foldr_jsOr_eq_find]
  · rw [h1, foldr_jsOr_eq_none_iff]
  · rw [h2, foldr_jsOr_eq_find]
  · rw [h2, foldr_jsOr_eq_none_iff]

/-- Claim C9: the timeline is append-only.  One `upsert` produces a
timeline that is the previous stored timeline (empty for a new key) with
at most one entry appended at the end — exactly one when a truthy
(non-null, non-empty) label is supplied — and this is what gets stored;
across any sequence of merge operations the stored timeline of every key
only ever grows at the end, so its length is monotonically
non-decreasing. -/
theorem c9_timeline_append_only :
    (∀ (store : Store) (order : String) (patch : Patch) (tl : Option String) (t : Nat),
      ∃ tail, ((upsert store order patch tl t).2).timeline
          = ((lookupStore store order).getD { timeline := [] }).timeline ++ tail ∧
        (lookupStore (upsert store order patch tl t).1 order).map OrderState.timeline
          = some (((lookupStore store order).getD { timeline := [] }).timeline ++ tail) ∧
        tail.length ≤ 1 ∧
        (∀ l, tl = some l → l ≠ "" → tail = [⟨t, l⟩])) ∧
    (∀ (s : Sys) (ops : List MergeOp) (key : String),
      ∃ tail, timelineOf (runOps s ops) key = timelineOf s key ++ tail ∧
        (timelineOf s key).length ≤ (timelineOf (runOps s ops) key).length) := by
  constructor
  · intro store order patch tl t
    refine ⟨if jsTruthy tl then [⟨t, tl.getD ""⟩] else [], rfl, ?_, ?_, ?_⟩
    · rw [upsert_fst, lookupStore_cons_self]
      rfl
    · split <;> simp
    · intro l hl hne
      have ht : jsTruthy tl = true := by
        rw [hl]; simpa [jsTruthy] using hne
      rw [ht, hl]
      simp
  · intro s ops key
    obtain ⟨tail, htail⟩ := timelineOf_runOps s ops key
    exact ⟨tail, htail, by rw [htail]; simp⟩

/-- Witness for C9: upserting a fresh key with the label "Hi" at time 5
yields exactly the one appended timeline entry. -/
theorem c9_witness :
    ((upsert [] "K" {} (some "Hi") 5).2).timeline = [⟨5, "Hi"⟩] := by
  obtain ⟨tail, heq, _hstore, _hlen, hlab⟩ :=
    c9_timeline_append_only.1 [] "K" {} (some "Hi") 5
  rw [heq, hlab "Hi" rfl (by decide)]
  rfl

/-- Claim C10: a tracking query or SSE subscription whose order key is
empty or whitespace-only after trimming is rejected (HTTP 400) without
registering any subscriber, sending any message, or touching any state;
the pending/empty-timeline default view is produced only for a non-empty
key that has no stored record. -/
theorem c10_blank_key_rejected :
    (∀ (store : Store) (q : Option String), trimStr (q.getD "") = "" →
      trackingHandler store q = .badRequest) ∧
    (∀ (s : Sys) (q : Option String) (sub : Subscriber), trimStr (q.getD "") = "" →
      connectES s q sub = (false, s)) ∧
    (∀ (store : Store) (key : String), trimStr key ≠ "" →
      lookupStore store (trimStr key) = none →
      trackingHandler store (some key)
        = .ok (trimStr key, { status := some "pending", timeline := [] })) := by
  refine ⟨?_, ?_, ?_⟩
  · intro store q h
    simp [trackingHandler, h]
  · intro s q sub h
    simp [connectES, h]
  · intro store key h habs
    simp [trackingHandler, h, queryView, habs]

/-- Witness for C10: a whitespace-only query is rejected by both routes
with the system untouched, and an unknown non-blank key gets the pending
default view. -/
theorem c10_witness :
    trackingHandler [] (some "   ") = .badRequest ∧
    connectES sysBroken (some " ") ⟨3, true⟩ = (false, sysBroken) ∧
    trackingHandler [] (some "ZZZ")
      = .ok (trimStr "ZZZ", { status := some "pending", timeline := [] }) :=
  ⟨c10_blank_key_rejected.1 [] (some "   ") (by decide),
   c10_blank_key_rejected.2.1 sysBroken (some " ") ⟨3, true⟩ (by decide),
   c10_blank_key_rejected.2.2 [] "ZZZ" (by decide) rfl⟩
